import Mathlib

/-!
# ECDSA self-tests (`crypto/internal/fips/ecdsa/cast.go`)

A shallow embedding of the two cryptographic algorithm self-tests (CAST) and of
the pairwise consistency test (PCT) of `cast.go`, together with the properties
of the accompanying specification.

Conventions of the embedding:

* a Go `[]byte` is the list of its bytes (`nil` and the empty slice are both `[]`,
  which is all that `len` and `bytes.Equal` can see of them);
* a Go `error` is `Option Error`, `none` being `nil`;
* a Go result pair `(*Signature, error)` is the pair `Signature × Option Error`;
  the signature component is read only when the error component is `nil`, and a
  signature returned with a `nil` error is taken to be a non-nil pointer, as in the
  collaborator contract `sign(...) -> (Signature, error)` of the specification;
* the functions that `cast.go` calls but does not define (`sign`, `verify`,
  `newDRBG`, `bits2octets`, `Sign`, `Verify`, `P256`, `sha512.New`) are fields of an
  environment record, and every call to one of them is written to a trace, so that
  what is handed to a collaborator, and whether it is called at all, can be stated.
-/

namespace Ecdsa

/-! ## Data model -/

/-- A Go `byte`. -/
abbrev Byte := Fin 256

/-- A Go `[]byte`, as the list of its bytes. -/
abbrev Bytes := List Byte

/-- A non-nil Go `error` value, identified by its message. -/
structure Error where
  msg : String
deriving DecidableEq, Repr

/-- Modelled from the spec: `errors.New` of the standard library, which is not part of
`cast.go`; it builds an error value carrying the given text. -/
def errorsNew (text : String) : Error := ⟨text⟩

/-- Modelled from the spec: `bytes.Equal` of the standard library, which is not part of
`cast.go`. The spec's ResultComparator "returns false on any length or byte
difference"; the comparison walks both slices in step. -/
def bytesEqual : Bytes → Bytes → Bool
  | [], [] => true
  | x :: xs, y :: ys => x == y && bytesEqual xs ys
  | _, _ => false

/-- The curve identifier stored in a public key. Its declaration is outside `cast.go`;
`p256` is the one constant that `cast.go` uses. -/
inductive curveID where
  | p256
deriving DecidableEq, Repr

/-- The fields of `PublicKey` that the struct literal of `testPrivateKey` sets. -/
structure PublicKey where
  curve : curveID
  q : Bytes
deriving DecidableEq, Repr

/-- The fields of `PrivateKey` that the struct literal of `testPrivateKey` sets. -/
structure PrivateKey where
  pub : PublicKey
  d : Bytes
deriving DecidableEq, Repr

/-- The two components of a `Signature`. -/
structure Signature where
  R : Bytes
  S : Bytes
deriving DecidableEq, Repr

/-- The personalization argument of `newDRBG`; `cast.go` builds it with the
conversion `plainPersonalizationString(persStr)` or passes `nil` (`none`). -/
inductive PersonalizationString where
  | plain (b : Bytes)
deriving DecidableEq, Repr

/-- The conversion `plainPersonalizationString(b)`. -/
def plainPersonalizationString (b : Bytes) : PersonalizationString := .plain b

/-! ## Fixtures -/

/-- The fixed key pair, `testPrivateKey` (cast.go:16-39). -/
def testPrivateKey : PrivateKey :=
  { pub :=
      { curve := curveID.p256
        q := [
          0x04,
          0x42, 0x25, 0x48, 0xF8, 0x8F, 0xB7, 0x82, 0xFF,
          0xB5, 0xEC, 0xA3, 0x74, 0x44, 0x52, 0xC7, 0x2A,
          0x1E, 0x55, 0x8F, 0xBD, 0x6F, 0x73, 0xBE, 0x5E,
          0x48, 0xE9, 0x32, 0x32, 0xCC, 0x45, 0xC5, 0xB1,
          0x6C, 0x4C, 0xD1, 0x0C, 0x4C, 0xB8, 0xD5, 0xB8,
          0xA1, 0x71, 0x39, 0xE9, 0x48, 0x82, 0xC8, 0x99,
          0x25, 0x72, 0x99, 0x34, 0x25, 0xF4, 0x14, 0x19,
          0xAB, 0x7E, 0x90, 0xA4, 0x2A, 0x49, 0x42, 0x72] }
    d := [
      0xE6, 0xCB, 0x5B, 0xDD, 0x80, 0xAA, 0x45, 0xAE,
      0x9C, 0x95, 0xE8, 0xC1, 0x54, 0x76, 0x67, 0x9F,
      0xFE, 0xC9, 0x53, 0xC1, 0x68, 0x51, 0xE7, 0x11,
      0xE7, 0x43, 0x93, 0x95, 0x89, 0xC6, 0x4F, 0xC1] }

/-- The fixed digest, `testHash` (cast.go:41-52). -/
def testHash : Bytes := [
  0x17, 0x1b, 0x1f, 0x5e, 0x9f, 0x8f, 0x8c, 0x5c,
  0x42, 0xe8, 0x06, 0x59, 0x7b, 0x54, 0xc7, 0xb4,
  0x49, 0x05, 0xa1, 0xdb, 0x3a, 0x3c, 0x31, 0xd3,
  0xb7, 0x56, 0x45, 0x8c, 0xc2, 0xd6, 0x88, 0x62,
  0x9e, 0xd6, 0x7b, 0x9b, 0x25, 0x68, 0xd6, 0xc6,
  0x18, 0x94, 0x1e, 0xfe, 0xe3, 0x33, 0x78, 0xa6,
  0xe1, 0xce, 0x13, 0x88, 0x81, 0x26, 0x02, 0x52,
  0xdf, 0xc2, 0x0a, 0xf2, 0x67, 0x49, 0x0a, 0x20]

/-- The local `Z` of the randomized-path case (cast.go:68-71). -/
def fipsSelfTest.Z : Bytes := [
  0x01, 0x02, 0x03, 0x04, 0x05, 0x06, 0x07, 0x08,
  0x09, 0x0a, 0x0b, 0x0c, 0x0d, 0x0e, 0x0f, 0x10]

/-- The local `persStr` of the randomized-path case (cast.go:72-75). -/
def fipsSelfTest.persStr : Bytes := [
  0x11, 0x12, 0x13, 0x14, 0x15, 0x16, 0x17, 0x18,
  0x19, 0x1a, 0x1b, 0x1c, 0x1d, 0x1e, 0x1f, 0x20]

/-- The local `want` of the randomized-path case (cast.go:77-89). -/
def fipsSelfTest.want : Signature :=
  { R := [
      0x33, 0x64, 0x96, 0xff, 0x8a, 0xfe, 0xaa, 0x0b,
      0x2c, 0x4a, 0x1a, 0x97, 0x77, 0xcc, 0x84, 0xa5,
      0x7e, 0x88, 0x1f, 0x16, 0x2d, 0xe0, 0x29, 0xf7,
      0x62, 0xc2, 0x34, 0x18, 0x10, 0x9c, 0x69, 0x8a]
    S := [
      0x97, 0x53, 0x2e, 0x13, 0x6e, 0xd0, 0x9b, 0x30,
      0x8a, 0xdf, 0x4f, 0xe0, 0x54, 0x82, 0x14, 0x83,
      0x5e, 0x93, 0xc7, 0x79, 0x4b, 0x18, 0xa3, 0xf1,
      0x8a, 0x60, 0xae, 0x52, 0x31, 0xe4, 0x2e, 0x4e] }

/-- The local `want` of the deterministic-path case (cast.go:109-121). -/
def fipsSelfTestDeterministic.want : Signature :=
  { R := [
      0x9f, 0xc3, 0x83, 0x32, 0x6e, 0xd9, 0x4f, 0x8e,
      0x24, 0xa0, 0x19, 0xef, 0x1d, 0x3a, 0xc3, 0x55,
      0xdd, 0x4b, 0x98, 0xae, 0x78, 0xa7, 0xaf, 0xd3,
      0xfd, 0xf3, 0x22, 0x1c, 0x8b, 0xd6, 0x11, 0x7b]
    S := [
      0xd6, 0x52, 0x87, 0x41, 0x71, 0xbd, 0x66, 0xd1,
      0xaf, 0x6c, 0x61, 0xdd, 0xd8, 0xa7, 0xbb, 0xd2,
      0xf7, 0xd5, 0x47, 0x70, 0xe9, 0xe4, 0xac, 0x0a,
      0xb9, 0xfa, 0x0f, 0xbd, 0x3b, 0x9b, 0xc2, 0xfe] }

/-! ## Traced calls to the collaborators -/

/-- A computation that returns `val` after making the external calls `log`,
oldest first. -/
structure Traced (ε α : Type) where
  val : α
  log : List ε

/-- Return a value without calling anything. -/
def Traced.ret {ε α : Type} (a : α) : Traced ε α := ⟨a, []⟩

/-- Run `m`, then `f` on its value; the calls of `m` come first. -/
def Traced.andThen {ε α β : Type} (m : Traced ε α) (f : α → Traced ε β) : Traced ε β :=
  ⟨(f m.val).val, m.log ++ (f m.val).log⟩

/-- One external call `e` that returned `r`. -/
def Traced.call {ε α : Type} (e : ε) (r : α) : Traced ε α := ⟨r, [e]⟩

instance {ε : Type} : Monad (Traced ε) where
  pure := Traced.ret
  bind := Traced.andThen

/-- The collaborators of the two CAST cases. `C` is the type of curves, `H` of hash
constructors and `D` of DRBG handles; none of them is declared in `cast.go`. -/
structure CastEnv (C H D : Type) where
  P256 : C
  sha512New : H
  newDRBG : H → Bytes → Bytes → Option PersonalizationString → D
  bits2octets : C → Bytes → Bytes
  sign : C → PrivateKey → D → Bytes → Signature × Option Error
  verify : C → PublicKey → Bytes → Signature → Option Error

/-- The calls a CAST case can make, with their arguments. -/
inductive Call (C H D : Type) where
  | newDRBG (hash : H) (entropy nonce : Bytes) (s : Option PersonalizationString)
  | bits2octets (c : C) (hash : Bytes)
  | sign (c : C) (k : PrivateKey) (drbg : D) (hash : Bytes)
  | verify (c : C) (pub : PublicKey) (hash : Bytes) (sig : Signature)

/-- Call `newDRBG(hash, entropy, nonce, s)`. -/
def CastEnv.callNewDRBG {C H D : Type} (env : CastEnv C H D) (hash : H)
    (entropy nonce : Bytes) (s : Option PersonalizationString) : Traced (Call C H D) D :=
  Traced.call (.newDRBG hash entropy nonce s) (env.newDRBG hash entropy nonce s)

/-- Call `bits2octets(c, hash)`. -/
def CastEnv.callBits2octets {C H D : Type} (env : CastEnv C H D) (c : C) (hash : Bytes) :
    Traced (Call C H D) Bytes :=
  Traced.call (.bits2octets c hash) (env.bits2octets c hash)

/-- Call `sign(c, k, drbg, hash)`. -/
def CastEnv.callSign {C H D : Type} (env : CastEnv C H D) (c : C) (k : PrivateKey)
    (drbg : D) (hash : Bytes) : Traced (Call C H D) (Signature × Option Error) :=
  Traced.call (.sign c k drbg hash) (env.sign c k drbg hash)

/-- Call `verify(c, pub, hash, sig)`. -/
def CastEnv.callVerify {C H D : Type} (env : CastEnv C H D) (c : C) (pub : PublicKey)
    (hash : Bytes) (sig : Signature) : Traced (Call C H D) (Option Error) :=
  Traced.call (.verify c pub hash sig) (env.verify c pub hash sig)

/-! ## The CAST case bodies -/

/-- The comparison of cast.go:98 and cast.go:130 (the same expression in both
cases): `!bytes.Equal(got.R, want.R) || !bytes.Equal(got.S, want.S)`. -/
def unexpectedResult (got want : Signature) : Bool :=
  !bytesEqual got.R want.R || !bytesEqual got.S want.S

/-- The function literal handed to `fips.CAST` in `fipsSelfTest` (cast.go:66-102), with
the local `want` as a parameter. -/
def fipsSelfTestBodyWith {C H D : Type} (env : CastEnv C H D) (want : Signature) :
    Traced (Call C H D) (Option Error) := do
  let k := testPrivateKey
  let Z := fipsSelfTest.Z
  let persStr := fipsSelfTest.persStr
  let hash := testHash
  let drbg ← env.callNewDRBG env.sha512New Z [] (some (plainPersonalizationString persStr))
  let (got, err) ← env.callSign env.P256 k drbg hash
  match err with
  | some e => pure (some e)
  | none =>
    match ← env.callVerify env.P256 k.pub hash got with
    | some e => pure (some e)
    | none =>
      if unexpectedResult got want then
        pure (some (errorsNew "unexpected result"))
      else
        pure none

/-- The function literal handed to `fips.CAST` in `fipsSelfTest`, with the `want` of
the source. -/
def fipsSelfTestBody {C H D : Type} (env : CastEnv C H D) :
    Traced (Call C H D) (Option Error) :=
  fipsSelfTestBodyWith env fipsSelfTest.want

/-- The function literal handed to `fips.CAST` in `fipsSelfTestDeterministic`
(cast.go:106-134), with the local `want` as a parameter. -/
def fipsSelfTestDeterministicBodyWith {C H D : Type} (env : CastEnv C H D)
    (want : Signature) : Traced (Call C H D) (Option Error) := do
  let k := testPrivateKey
  let hash := testHash
  let octets ← env.callBits2octets env.P256 hash
  let drbg ← env.callNewDRBG env.sha512New k.d octets none
  let (got, err) ← env.callSign env.P256 k drbg hash
  match err with
  | some e => pure (some e)
  | none =>
    match ← env.callVerify env.P256 k.pub hash got with
    | some e => pure (some e)
    | none =>
      if unexpectedResult got want then
        pure (some (errorsNew "unexpected result"))
      else
        pure none

/-- The function literal handed to `fips.CAST` in `fipsSelfTestDeterministic`, with the
`want` of the source. -/
def fipsSelfTestDeterministicBody {C H D : Type} (env : CastEnv C H D) :
    Traced (Call C H D) (Option Error) :=
  fipsSelfTestDeterministicBodyWith env fipsSelfTestDeterministic.want

/-! ## The failure sink and the once-guards -/

/-- What the failure sink is given: the name of the failed case and its error. -/
structure Failure where
  name : String
  err : Error
deriving DecidableEq, Repr

/-- Modelled from the spec: `fips.CAST`, which is not part of `cast.go`. It runs the
case body; "any failure (signing error, verification failure, or mismatch) is
forwarded to FailureSink and the case name is attached for diagnostics". The value is
what reaches the failure sink, `none` when the case passed. -/
def CAST {ε : Type} (name : String) (f : Traced ε (Option Error)) :
    Traced ε (Option Failure) := do
  match ← f with
  | none => pure none
  | some e => pure (some ⟨name, e⟩)

/-- The state of one once-guard: the completion flag, the number of times the guarded
function has been executed, and the outcome it published. -/
structure OnceState where
  done : Bool
  runs : Nat
  failure : Option Failure
deriving DecidableEq, Repr

/-- The guard before its first invocation. -/
def OnceState.init : OnceState := ⟨false, 0, none⟩

/-- Modelled from the spec: `sync.OnceFunc`, which is not part of `cast.go`. The first
invocation executes the guarded function and publishes its outcome ("uninitialized →
running → completed-success or completed-fatal"); "subsequent calls return
immediately with no re-execution and no side effects" and observe the published
outcome. -/
def onceFunc {ε : Type} (f : Traced ε (Option Failure)) (s : OnceState) :
    Traced ε (OnceState × Option Failure) :=
  if s.done then
    pure (s, s.failure)
  else do
    let r ← f
    pure ({ done := true, runs := s.runs + 1, failure := r }, r)

/-- One invocation of the package variable `fipsSelfTest` (cast.go:65-103) with the
collaborators behaving as `env`. -/
def fipsSelfTest {C H D : Type} (env : CastEnv C H D) (s : OnceState) :
    Traced (Call C H D) (OnceState × Option Failure) :=
  onceFunc (CAST "ECDSA P-256 SHA2-512 sign and verify" (fipsSelfTestBody env)) s

/-- One invocation of the package variable `fipsSelfTestDeterministic`
(cast.go:105-135) with the collaborators behaving as `env`. -/
def fipsSelfTestDeterministic {C H D : Type} (env : CastEnv C H D) (s : OnceState) :
    Traced (Call C H D) (OnceState × Option Failure) :=
  onceFunc (CAST "DetECDSA P-256 SHA2-512 sign" (fipsSelfTestDeterministicBody env)) s

/-- Sequential invocations of a once-guarded function, one for each element of the
list; the element is the behaviour of the collaborators at that invocation. The value
is the final guard state and what each invocation observed, in order. -/
def invokeAll {ε α : Type} (step : α → OnceState → Traced ε (OnceState × Option Failure)) :
    List α → OnceState → Traced ε (OnceState × List (Option Failure))
  | [], s => pure (s, [])
  | a :: rest, s => do
    let (s1, o) ← step a s
    let (s2, os) ← invokeAll step rest s1
    pure (s2, o :: os)

/-- The two package variables of `cast.go`, each with the guard of its own
`sync.OnceFunc`. -/
structure Guards where
  selfTest : OnceState
  selfTestDeterministic : OnceState
deriving DecidableEq, Repr

/-- Both guards before their first invocation. -/
def Guards.init : Guards := ⟨OnceState.init, OnceState.init⟩

/-- Invoke `fipsSelfTest()` in a state of the two package variables. -/
def Guards.callFipsSelfTest {C H D : Type} (env : CastEnv C H D) (g : Guards) :
    Traced (Call C H D) (Guards × Option Failure) := do
  let (s, o) ← fipsSelfTest env g.selfTest
  pure ({ g with selfTest := s }, o)

/-- Invoke `fipsSelfTestDeterministic()` in a state of the two package variables. -/
def Guards.callFipsSelfTestDeterministic {C H D : Type} (env : CastEnv C H D) (g : Guards) :
    Traced (Call C H D) (Guards × Option Failure) := do
  let (s, o) ← fipsSelfTestDeterministic env g.selfTestDeterministic
  pure ({ g with selfTestDeterministic := s }, o)

/-! ## The pairwise consistency test -/

/-- The collaborators of `fipsPCT`. `C` is the type of curves, `H` of hash constructors
and `Rd` of randomness readers; none of them is declared in `cast.go`. -/
structure PctEnv (C H Rd : Type) where
  sha512New : H
  Sign : C → H → PrivateKey → Option Rd → Bytes → Signature × Option Error
  Verify : C → PublicKey → Bytes → Signature → Option Error

/-- The calls the check of `fipsPCT` can make, with their arguments. -/
inductive PctCall (C H Rd : Type) where
  | Sign (c : C) (hash : H) (k : PrivateKey) (rand : Option Rd) (digest : Bytes)
  | Verify (c : C) (pub : PublicKey) (digest : Bytes) (sig : Signature)

/-- Call `Sign(c, hash, k, rand, digest)`. -/
def PctEnv.callSign {C H Rd : Type} (env : PctEnv C H Rd) (c : C) (hash : H)
    (k : PrivateKey) (rand : Option Rd) (digest : Bytes) :
    Traced (PctCall C H Rd) (Signature × Option Error) :=
  Traced.call (.Sign c hash k rand digest) (env.Sign c hash k rand digest)

/-- Call `Verify(c, pub, digest, sig)`. -/
def PctEnv.callVerify {C H Rd : Type} (env : PctEnv C H Rd) (c : C) (pub : PublicKey)
    (digest : Bytes) (sig : Signature) : Traced (PctCall C H Rd) (Option Error) :=
  Traced.call (.Verify c pub digest sig) (env.Verify c pub digest sig)

/-- The function literal handed to `fips.PCT` in `fipsPCT` (cast.go:55-62). -/
def fipsPCTBody {C H Rd : Type} (env : PctEnv C H Rd) (c : C) (k : PrivateKey) :
    Traced (PctCall C H Rd) (Option Error) := do
  let hash := testHash
  let (sig, err) ← env.callSign c env.sha512New k none hash
  match err with
  | some e => pure (some e)
  | none => env.callVerify c k.pub hash sig

/-- The function `fipsPCT` (cast.go:54-63); `fips.PCT` is not part of `cast.go` and is a
parameter. -/
def fipsPCT {C H Rd ρ : Type} (PCT : String → Traced (PctCall C H Rd) (Option Error) → ρ)
    (env : PctEnv C H Rd) (c : C) (k : PrivateKey) : ρ :=
  PCT "ECDSA PCT" (fipsPCTBody env c k)

/-! ## Concrete collaborators, used to instantiate the theorems -/

/-- Collaborators under which both cases pass: the DRBG handle records whether a
personalization string was given, `sign` answers with the fixture of the matching
case, `verify` accepts. -/
def passingEnv : CastEnv Unit Unit Bool where
  P256 := ()
  sha512New := ()
  newDRBG := fun _ _ _ s => s.isSome
  bits2octets := fun _ hash => hash
  sign := fun _ _ drbg _ =>
    (if drbg then fipsSelfTest.want else fipsSelfTestDeterministic.want, none)
  verify := fun _ _ _ _ => none

/-- Collaborators whose `sign` succeeds and whose `verify` rejects. -/
def verifyFailsEnv : CastEnv Unit Unit Bool :=
  { passingEnv with verify := fun _ _ _ _ => some (errorsNew "invalid signature") }

/-- Collaborators whose `sign` and `verify` succeed, `sign` producing a signature
other than the fixtures. -/
def mismatchEnv : CastEnv Unit Unit Bool :=
  { passingEnv with sign := fun _ _ _ _ => (⟨[0x01], [0x02]⟩, none) }

/-- Collaborators whose `sign` fails. -/
def signFailsEnv : CastEnv Unit Unit Bool :=
  { passingEnv with sign := fun _ _ _ _ => (⟨[], []⟩, some (errorsNew "sign failed")) }

/-! ## Vocabulary of the statements -/

/-- The two CAST cases of `cast.go`. -/
inductive Case where
  | randomized
  | deterministic
deriving DecidableEq, Repr

/-- The body of a case, with the expected signature as a parameter. -/
def Case.bodyWith {C H D : Type} (which : Case) (env : CastEnv C H D) (want : Signature) :
    Traced (Call C H D) (Option Error) :=
  match which with
  | .randomized => fipsSelfTestBodyWith env want
  | .deterministic => fipsSelfTestDeterministicBodyWith env want

/-- The expected signature of a case. -/
def Case.want (which : Case) : Signature :=
  match which with
  | .randomized => fipsSelfTest.want
  | .deterministic => fipsSelfTestDeterministic.want

/-- The body of a case, as `cast.go` hands it to `fips.CAST`. -/
def Case.body {C H D : Type} (which : Case) (env : CastEnv C H D) :
    Traced (Call C H D) (Option Error) :=
  match which with
  | .randomized => fipsSelfTestBody env
  | .deterministic => fipsSelfTestDeterministicBody env

/-- The once-guarded self-test of a case. -/
def Case.selfTest {C H D : Type} (which : Case) (env : CastEnv C H D) (s : OnceState) :
    Traced (Call C H D) (OnceState × Option Failure) :=
  match which with
  | .randomized => fipsSelfTest env s
  | .deterministic => fipsSelfTestDeterministic env s

/-- The name under which a case is registered with `fips.CAST`. -/
def Case.name (which : Case) : String :=
  match which with
  | .randomized => "ECDSA P-256 SHA2-512 sign and verify"
  | .deterministic => "DetECDSA P-256 SHA2-512 sign"

/-- The DRBG handle a case builds (cast.go:90, cast.go:122). -/
def Case.drbg {C H D : Type} (which : Case) (env : CastEnv C H D) : D :=
  match which with
  | .randomized =>
    env.newDRBG env.sha512New fipsSelfTest.Z []
      (some (plainPersonalizationString fipsSelfTest.persStr))
  | .deterministic =>
    env.newDRBG env.sha512New testPrivateKey.d (env.bits2octets env.P256 testHash) none

/-- What `sign` returns to a case (cast.go:91, cast.go:123). -/
def Case.signed {C H D : Type} (which : Case) (env : CastEnv C H D) :
    Signature × Option Error :=
  env.sign env.P256 testPrivateKey (which.drbg env) testHash

/-- What `verify` returns to a case for the signature that `sign` produced
(cast.go:95, cast.go:127). -/
def Case.verified {C H D : Type} (which : Case) (env : CastEnv C H D) : Option Error :=
  env.verify env.P256 testPrivateKey.pub testHash (which.signed env).1

/-- Whether a call is a call of `newDRBG`. -/
def Call.isNewDRBG {C H D : Type} : Call C H D → Bool
  | .newDRBG _ _ _ _ => true
  | _ => false

/-- Whether a call is a call of `Verify`. -/
def PctCall.isVerify {C H Rd : Type} : PctCall C H Rd → Bool
  | .Verify _ _ _ _ => true
  | _ => false

/-- The behaviour of the collaborators at the first `n` invocations, `envAt i` being
their behaviour at invocation `i`. -/
def firstInvocations {α : Type} (envAt : Nat → α) (n : Nat) : List α :=
  (List.range n).map envAt

/-! ## Properties -/

section Lemmas

variable {ε α β : Type}

@[simp] theorem Traced.val_pure (a : α) : (pure a : Traced ε α).val = a := rfl

@[simp] theorem Traced.log_pure (a : α) : (pure a : Traced ε α).log = [] := rfl

@[simp] theorem Traced.val_bind (m : Traced ε α) (f : α → Traced ε β) :
    (m >>= f).val = (f m.val).val := rfl

@[simp] theorem Traced.log_bind (m : Traced ε α) (f : α → Traced ε β) :
    (m >>= f).log = m.log ++ (f m.val).log := rfl

@[simp] theorem Traced.val_call (e : ε) (r : α) : (Traced.call e r).val = r := rfl

@[simp] theorem Traced.log_call (e : ε) (r : α) : (Traced.call e r).log = [e] := rfl

theorem Traced.ext_iff (m n : Traced ε α) : m = n ↔ m.val = n.val ∧ m.log = n.log := by
  cases m; cases n; simp

/-- The model of `bytes.Equal` decides equality of the byte sequences. -/
theorem bytesEqual_iff (a b : Bytes) : bytesEqual a b = true ↔ a = b := by
  induction a generalizing b with
  | nil => cases b <;> simp [bytesEqual]
  | cons x xs ih => cases b <;> simp [bytesEqual, ih]

/-- The comparison of the case bodies rejects exactly the signatures that differ from
the expected one in `R` or in `S`. -/
theorem unexpectedResult_eq_false_iff (got want : Signature) :
    unexpectedResult got want = false ↔ got.R = want.R ∧ got.S = want.S := by
  simp [unexpectedResult, bytesEqual_iff]

/-- The value a case body returns, by cases on what `sign` and `verify` returned. -/
theorem Case.bodyWith_val {C H D : Type} (which : Case) (env : CastEnv C H D)
    (want : Signature) :
    (which.bodyWith env want).val =
      match (which.signed env).2 with
      | some e => some e
      | none =>
        match which.verified env with
        | some e => some e
        | none =>
          if unexpectedResult (which.signed env).1 want then
            some (errorsNew "unexpected result")
          else none := by
  cases which <;>
    simp only [Case.bodyWith, fipsSelfTestBodyWith, fipsSelfTestDeterministicBodyWith,
      Case.signed, Case.verified, Case.drbg, CastEnv.callNewDRBG, CastEnv.callSign,
      CastEnv.callVerify, CastEnv.callBits2octets, Traced.val_bind, Traced.val_call] <;>
    (split <;> [skip; split] <;> simp_all <;> split <;> simp_all)

theorem Case.body_eq {C H D : Type} (which : Case) (env : CastEnv C H D) :
    which.body env = which.bodyWith env which.want := by
  cases which <;> rfl

theorem CAST_val (name : String) (f : Traced ε (Option Error)) :
    (CAST name f).val = f.val.map (Failure.mk name) := by
  simp only [CAST, Traced.val_bind]
  split <;> simp_all

theorem CAST_log (name : String) (f : Traced ε (Option Error)) :
    (CAST name f).log = f.log := by
  simp only [CAST, Traced.log_bind]
  split <;> simp

/-- An invocation of a completed guard returns the published outcome, leaves the guard
as it is and calls nothing. -/
theorem onceFunc_done (f : Traced ε (Option Failure)) (s : OnceState)
    (h : s.done = true) : onceFunc f s = ⟨(s, s.failure), []⟩ := by
  simp [onceFunc, h, pure, Traced.ret]

/-- The first invocation of a guard executes the guarded function. -/
theorem onceFunc_first (f : Traced ε (Option Failure)) (s : OnceState)
    (h : s.done = false) :
    onceFunc f s = ⟨(⟨true, s.runs + 1, f.val⟩, f.val), f.log⟩ := by
  simp [onceFunc, h, Traced.ext_iff]

theorem Case.selfTest_eq {C H D : Type} (which : Case) (env : CastEnv C H D)
    (s : OnceState) :
    which.selfTest env s = onceFunc (CAST which.name (which.body env)) s := by
  cases which <;> rfl

/-- Invocations of a completed guard all observe the published outcome. -/
theorem invokeAll_done {C H D : Type} (which : Case) (envs : List (CastEnv C H D))
    (s : OnceState) (h : s.done = true) :
    invokeAll which.selfTest envs s = ⟨(s, List.replicate envs.length s.failure), []⟩ := by
  induction envs with
  | nil => rfl
  | cons env rest ih =>
    simp only [invokeAll, Case.selfTest_eq, onceFunc_done _ s h, Traced.ext_iff,
      Traced.val_bind, Traced.log_bind, Traced.val_pure, Traced.log_pure]
    simp only [← Case.selfTest_eq, ih]
    simp [List.replicate_succ]

theorem firstInvocations_succ (envAt : Nat → α) (n : Nat) :
    firstInvocations envAt (n + 1) =
      envAt 0 :: firstInvocations (fun i => envAt (i + 1)) n := by
  simp [firstInvocations, List.range_succ_eq_map, List.map_map, Function.comp_def]

theorem firstInvocations_length (envAt : Nat → α) (n : Nat) :
    (firstInvocations envAt n).length = n := by
  simp [firstInvocations]

end Lemmas

/-! ### The outcome of a CAST case -/

/-- C1: for each of the two CAST case bodies and for every behaviour of `sign` and
`verify`, the body returns no error if and only if `sign` returned no error, `verify` of
the produced signature against the fixed public key returned no error, and the produced
`R` and `S` equal the expected `R` and `S` of the fixture; in every other situation the
body returns a non-nil error. -/
theorem cast_body_nil_iff {C H D : Type} (which : Case) (env : CastEnv C H D) :
    ((which.body env).val = none ↔
      (which.signed env).2 = none ∧
      env.verify env.P256 testPrivateKey.pub testHash (which.signed env).1 = none ∧
      (which.signed env).1.R = which.want.R ∧
      (which.signed env).1.S = which.want.S) ∧
    (¬ ((which.signed env).2 = none ∧
        env.verify env.P256 testPrivateKey.pub testHash (which.signed env).1 = none ∧
        (which.signed env).1.R = which.want.R ∧
        (which.signed env).1.S = which.want.S) →
      ∃ e, (which.body env).val = some e) := by
  have key : (which.body env).val = none ↔
      (which.signed env).2 = none ∧
      env.verify env.P256 testPrivateKey.pub testHash (which.signed env).1 = none ∧
      (which.signed env).1.R = which.want.R ∧
      (which.signed env).1.S = which.want.S := by
    rw [Case.body_eq, Case.bodyWith_val]
    rcases hs : (which.signed env).2 with _ | e
    · rcases hv : which.verified env with _ | e
      · have hv2 : env.verify env.P256 testPrivateKey.pub testHash (which.signed env).1 = none := hv
        by_cases hu : unexpectedResult (which.signed env).1 which.want = true
        · have hne : ¬ unexpectedResult (which.signed env).1 which.want = false := by simp [hu]
          rw [unexpectedResult_eq_false_iff] at hne
          simp only [hu, if_true, hv2, true_and]
          constructor
          · intro h; cases h
          · intro h; exact absurd h hne
        · have hf : unexpectedResult (which.signed env).1 which.want = false := by
            simpa using hu
          have := (unexpectedResult_eq_false_iff _ _).1 hf
          simp [hf, hv2, this]
      · have hv2 : env.verify env.P256 testPrivateKey.pub testHash (which.signed env).1 = some e := hv
        simp [hv2]
    · simp
  refine ⟨key, fun h => ?_⟩
  rcases hb : (which.body env).val with _ | e
  · exact absurd (key.1 hb) h
  · exact ⟨e, rfl⟩

/-- C3: if a case body returns no error with expected signature `want`, then with
any expected signature obtained from `want` by changing one byte of `R` or one byte of
`S` it returns an error, `sign` and `verify` being the same; and at most one expected
signature makes the case pass. -/
theorem cast_body_want_unique {C H D : Type} (which : Case) (env : CastEnv C H D)
    (want : Signature) (h : (which.bodyWith env want).val = none) :
    (∀ (i : Nat) (b : Byte), i < want.R.length → want.R[i]? ≠ some b →
      ∃ e, (which.bodyWith env { want with R := want.R.set i b }).val = some e) ∧
    (∀ (i : Nat) (b : Byte), i < want.S.length → want.S[i]? ≠ some b →
      ∃ e, (which.bodyWith env { want with S := want.S.set i b }).val = some e) ∧
    (∀ want' : Signature, (which.bodyWith env want').val = none → want' = want) := by
  have pass : ∀ w : Signature, (which.bodyWith env w).val = none →
      (which.signed env).1.R = w.R ∧ (which.signed env).1.S = w.S := by
    intro w hw
    rw [Case.bodyWith_val] at hw
    rcases hs : (which.signed env).2 with _ | e
    · rcases hv : which.verified env with _ | e
      · by_cases hu : unexpectedResult (which.signed env).1 w = true
        · simp [hs, hv, hu] at hw
        · exact (unexpectedResult_eq_false_iff _ _).1 (by simpa using hu)
      · simp [hs, hv] at hw
    · simp [hs] at hw
  have uniq : ∀ want' : Signature, (which.bodyWith env want').val = none → want' = want := by
    intro w hw
    obtain ⟨h1, h2⟩ := pass w hw
    obtain ⟨h3, h4⟩ := pass want h
    cases w; cases want
    simp only [Signature.mk.injEq]
    exact ⟨h1.symm.trans h3, h2.symm.trans h4⟩
  have fails : ∀ w : Signature, w ≠ want → ∃ e, (which.bodyWith env w).val = some e := by
    intro w hne
    rcases hb : (which.bodyWith env w).val with _ | e
    · exact absurd (uniq w hb) hne
    · exact ⟨e, rfl⟩
  refine ⟨fun i b hi hb => fails _ ?_, fun i b hi hb => fails _ ?_, uniq⟩
  · intro heq
    have hR : want.R.set i b = want.R := congrArg Signature.R heq
    have := congrArg (fun l => l[i]?) hR
    simp only [List.getElem?_set_self, hi] at this
    exact hb this.symm
  · intro heq
    have hS : want.S.set i b = want.S := congrArg Signature.S heq
    have := congrArg (fun l => l[i]?) hS
    simp only [List.getElem?_set_self, hi] at this
    exact hb this.symm

/-- Witness of C3: with collaborators that reproduce the fixture, the randomized-path
case passes with the expected signature of the source and fails once a byte of it is
changed. -/
theorem cast_body_want_unique_witness :
    (Case.randomized.bodyWith passingEnv fipsSelfTest.want).val = none ∧
    (∃ e, (Case.randomized.bodyWith passingEnv
      { fipsSelfTest.want with R := fipsSelfTest.want.R.set 0 0 }).val = some e) :=
  ⟨by decide,
   (cast_body_want_unique Case.randomized passingEnv fipsSelfTest.want (by decide)).1
     0 0 (by decide) (by decide)⟩

/-- C7 (as stated, refuted): a run in which `verify` fails and a run in which the
produced signature differs from the fixture do not return the same result. -/
theorem verify_error_not_same_as_mismatch :
    ¬ (∀ (which : Case) (env₁ env₂ : CastEnv Unit Unit Bool),
        (which.signed env₁).2 = none → which.verified env₁ ≠ none →
        (which.signed env₂).2 = none → which.verified env₂ = none →
        unexpectedResult (which.signed env₂).1 which.want = true →
        (which.body env₁).val = (which.body env₂).val) := by
  intro h
  exact absurd
    (h Case.randomized verifyFailsEnv mismatchEnv (by decide) (by decide) (by decide)
      (by decide) (by decide))
    (by decide)

/-- C7 (amended): when `sign` succeeds, a verification error and a fixture mismatch
both make the case body return a non-nil error, but not the same one: after a
verification error the body returns the error of `verify` itself, after a mismatch the
fixed error "unexpected result". -/
theorem verify_error_and_mismatch_both_fail {C H D : Type} (which : Case)
    (env : CastEnv C H D) (hs : (which.signed env).2 = none) :
    (∀ e, which.verified env = some e → (which.body env).val = some e) ∧
    (which.verified env = none →
      unexpectedResult (which.signed env).1 which.want = true →
      (which.body env).val = some (errorsNew "unexpected result")) := by
  rw [Case.body_eq, Case.bodyWith_val]
  constructor
  · intro e hv
    simp [hs, hv]
  · intro hv hu
    simp [hs, hv, hu]

/-- Witness of C7 (amended): with a `verify` that rejects, the randomized-path case
returns the error of `verify`. -/
theorem verify_error_and_mismatch_both_fail_witness :
    (Case.randomized.signed verifyFailsEnv).2 = none ∧
    (Case.randomized.body verifyFailsEnv).val = some (errorsNew "invalid signature") :=
  ⟨by decide,
   (verify_error_and_mismatch_both_fail Case.randomized verifyFailsEnv (by decide)).1
     (errorsNew "invalid signature") (by decide)⟩

/-! ### The comparison and the fixtures -/

/-- C4: the comparison of both CAST cases accepts `got` against `want` if and only if
`got.R` and `want.R` have the same length and the same byte at every index, and likewise
`got.S` and `want.S`; and whenever it accepts, it rejects after a zero byte is put in
front of `R` or of `S`, on either side, and after the leading zero byte of `R` or of `S`
is removed. -/
theorem unexpectedResult_exact (got want : Signature) :
    (unexpectedResult got want = false ↔
      (got.R.length = want.R.length ∧ ∀ i, i < got.R.length → got.R[i]? = want.R[i]?) ∧
      (got.S.length = want.S.length ∧ ∀ i, i < got.S.length → got.S[i]? = want.S[i]?)) ∧
    (unexpectedResult got want = false →
      unexpectedResult { got with R := 0 :: got.R } want = true ∧
      unexpectedResult { got with S := 0 :: got.S } want = true ∧
      unexpectedResult got { want with R := 0 :: want.R } = true ∧
      unexpectedResult got { want with S := 0 :: want.S } = true ∧
      (∀ r, got.R = 0 :: r → unexpectedResult { got with R := r } want = true) ∧
      (∀ s, got.S = 0 :: s → unexpectedResult { got with S := s } want = true)) := by
  have ext : ∀ a b : Bytes,
      a = b ↔ a.length = b.length ∧ ∀ i, i < a.length → a[i]? = b[i]? := by
    intro a b
    constructor
    · rintro rfl
      exact ⟨rfl, fun _ _ => rfl⟩
    · rintro ⟨hl, hi⟩
      apply List.ext_getElem? 
      intro i
      by_cases h : i < a.length
      · exact hi i h
      · have ha : a.length ≤ i := Nat.le_of_not_lt h
        have hb : b.length ≤ i := hl ▸ ha
        rw [List.getElem?_eq_none ha, List.getElem?_eq_none hb]
  have rej : ∀ g w : Signature, (g.R ≠ w.R ∨ g.S ≠ w.S) → unexpectedResult g w = true := by
    intro g w h
    rcases hu : unexpectedResult g w with _ | _
    · have := (unexpectedResult_eq_false_iff g w).1 hu
      rcases h with h | h
      · exact absurd this.1 h
      · exact absurd this.2 h
    · rfl
  have len : ∀ (x : Byte) (l : Bytes), x :: l ≠ l := by
    intro x l h
    have := congrArg List.length h
    simp at this
  refine ⟨?_, fun h => ?_⟩
  · rw [unexpectedResult_eq_false_iff, ext got.R want.R, ext got.S want.S]
  · obtain ⟨hR, hS⟩ := (unexpectedResult_eq_false_iff got want).1 h
    refine ⟨rej _ _ (Or.inl ?_), rej _ _ (Or.inr ?_), rej _ _ (Or.inl ?_),
      rej _ _ (Or.inr ?_), fun r hr => rej _ _ (Or.inl ?_), fun s hs => rej _ _ (Or.inr ?_)⟩
    · show 0 :: got.R ≠ want.R
      rw [← hR]; exact len _ _
    · show 0 :: got.S ≠ want.S
      rw [← hS]; exact len _ _
    · show got.R ≠ 0 :: want.R
      rw [hR]; exact fun h => len _ _ h.symm
    · show got.S ≠ 0 :: want.S
      rw [hS]; exact fun h => len _ _ h.symm
    · show r ≠ want.R
      rw [← hR, hr]; exact fun h => len _ _ h.symm
    · show s ≠ want.S
      rw [← hS, hs]; exact fun h => len _ _ h.symm

/-- C9: `R` and `S` of the randomized-path fixture and `R` and `S` of the
deterministic-path fixture are each exactly 32 bytes long, as is the private scalar `d`
of `testPrivateKey`; and the two expected signatures differ, in `R` as well as in `S`. -/
theorem fixture_lengths :
    fipsSelfTest.want.R.length = 32 ∧ fipsSelfTest.want.S.length = 32 ∧
    fipsSelfTestDeterministic.want.R.length = 32 ∧
    fipsSelfTestDeterministic.want.S.length = 32 ∧
    testPrivateKey.d.length = 32 ∧
    fipsSelfTest.want ≠ fipsSelfTestDeterministic.want ∧
    fipsSelfTest.want.R ≠ fipsSelfTestDeterministic.want.R ∧
    fipsSelfTest.want.S ≠ fipsSelfTestDeterministic.want.S := by
  decide

/-! ### The once-guards -/

/-- C2: for each of the two once-guarded self-tests and every number `N ≥ 1` of
sequential invocations, whatever the collaborators do at each invocation, the case body
is executed exactly once, on the first invocation (the execution counter is 1 and the
external calls made are those of one execution of the body under the collaborators of
the first invocation), all `N` invocations observe the same outcome, the one of that
execution, and an invocation of a completed guard leaves the state unchanged and calls
nothing. -/
theorem selfTest_executes_once {C H D : Type} (which : Case) (N : Nat) (hN : 1 ≤ N)
    (envAt : Nat → CastEnv C H D) :
    (invokeAll which.selfTest (firstInvocations envAt N) OnceState.init).val =
      (⟨true, 1, (CAST which.name (which.body (envAt 0))).val⟩,
        List.replicate N (CAST which.name (which.body (envAt 0))).val) ∧
    (invokeAll which.selfTest (firstInvocations envAt N) OnceState.init).log =
      (which.body (envAt 0)).log ∧
    (∀ (env : CastEnv C H D) (s : OnceState), s.done = true →
      which.selfTest env s = ⟨(s, s.failure), []⟩) := by
  obtain ⟨n, rfl⟩ : ∃ n, N = n + 1 := ⟨N - 1, by omega⟩
  have later : ∀ r : Option Failure,
      invokeAll which.selfTest (firstInvocations (fun i => envAt (i + 1)) n)
        ⟨true, OnceState.init.runs + 1, r⟩ =
      ⟨(⟨true, OnceState.init.runs + 1, r⟩, List.replicate n r), []⟩ := by
    intro r
    rw [invokeAll_done which _ _ rfl, firstInvocations_length]
  refine ⟨?_, ?_, fun env s h => by rw [Case.selfTest_eq, onceFunc_done _ s h]⟩
  · rw [firstInvocations_succ]
    simp only [invokeAll, Case.selfTest_eq, onceFunc_first _ OnceState.init rfl,
      Traced.val_bind]
    simp only [← Case.selfTest_eq, later]
    simp [OnceState.init, List.replicate_succ]
  · rw [firstInvocations_succ]
    simp only [invokeAll, Case.selfTest_eq, onceFunc_first _ OnceState.init rfl,
      Traced.log_bind]
    simp only [← Case.selfTest_eq, later, CAST_log]
    simp

/-- Witness of C2: three invocations of `fipsSelfTest`, the collaborators reproducing
the fixture at the first and failing at the later ones; the case is executed once and
all three invocations observe that it passed. -/
theorem selfTest_executes_once_witness :
    1 ≤ 3 ∧
    (invokeAll Case.randomized.selfTest
      (firstInvocations (fun i => if i = 0 then passingEnv else signFailsEnv) 3)
      OnceState.init).val = (⟨true, 1, none⟩, [none, none, none]) :=
  ⟨by decide,
   (selfTest_executes_once Case.randomized 3 (by decide)
     (fun i => if i = 0 then passingEnv else signFailsEnv)).1⟩

/-- C10: the two self-tests have independent guards. Invoking `fipsSelfTest` leaves the
guard of `fipsSelfTestDeterministic` unchanged and makes the external calls of the
randomized-path case only (or none, when its guard is completed); invoking
`fipsSelfTestDeterministic` leaves the guard of `fipsSelfTest` unchanged and makes the
external calls of the deterministic-path case only; and from the initial state each
invocation alone reaches a state in which exactly one of the two cases has run, and
passed. -/
theorem guards_independent {C H D : Type} (env : CastEnv C H D) (g : Guards) :
    (g.callFipsSelfTest env).val.1.selfTestDeterministic = g.selfTestDeterministic ∧
    (g.callFipsSelfTest env).log =
      (if g.selfTest.done then [] else (fipsSelfTestBody env).log) ∧
    (g.callFipsSelfTestDeterministic env).val.1.selfTest = g.selfTest ∧
    (g.callFipsSelfTestDeterministic env).log =
      (if g.selfTestDeterministic.done then []
        else (fipsSelfTestDeterministicBody env).log) ∧
    (Guards.init.callFipsSelfTest passingEnv).val =
      (⟨⟨true, 1, none⟩, OnceState.init⟩, none) ∧
    (Guards.init.callFipsSelfTestDeterministic passingEnv).val =
      (⟨OnceState.init, ⟨true, 1, none⟩⟩, none) := by
  refine ⟨rfl, ?_, rfl, ?_, by decide, by decide⟩
  · simp only [Guards.callFipsSelfTest, fipsSelfTest, Traced.log_bind, Traced.log_pure,
      List.append_nil]
    rcases hd : g.selfTest.done with _ | _
    · rw [onceFunc_first _ _ hd, CAST_log]; simp
    · rw [onceFunc_done _ _ hd]; simp
  · simp only [Guards.callFipsSelfTestDeterministic, fipsSelfTestDeterministic,
      Traced.log_bind, Traced.log_pure, List.append_nil]
    rcases hd : g.selfTestDeterministic.done with _ | _
    · rw [onceFunc_first _ _ hd, CAST_log]; simp
    · rw [onceFunc_done _ _ hd]; simp

/-! ### The pairwise consistency test -/

/-- C5: for every private key `k` and every behaviour of `Sign` and `Verify`, the check
of `fipsPCT` returns no error if and only if `Sign` with `k` over the digest returned no
error and `Verify` of the produced signature with `k.pub` and the same digest returned
no error. When `Sign` fails, its error is returned, `Sign` is the only call made and the
result is the same whatever `Verify` would do; when `Sign` succeeds, the result is the
result of `Verify`, and the calls made are that `Sign` and that `Verify`: nothing is
compared with an expected signature. -/
theorem fipsPCT_nil_iff {C H Rd : Type} (env : PctEnv C H Rd) (c : C) (k : PrivateKey) :
    ((fipsPCTBody env c k).val = none ↔
      (env.Sign c env.sha512New k none testHash).2 = none ∧
      env.Verify c k.pub testHash (env.Sign c env.sha512New k none testHash).1 = none) ∧
    (∀ e, (env.Sign c env.sha512New k none testHash).2 = some e →
      (fipsPCTBody env c k).val = some e ∧
      (fipsPCTBody env c k).log = [PctCall.Sign c env.sha512New k none testHash] ∧
      ∀ V, fipsPCTBody { env with Verify := V } c k = fipsPCTBody env c k) ∧
    ((env.Sign c env.sha512New k none testHash).2 = none →
      (fipsPCTBody env c k).val =
        env.Verify c k.pub testHash (env.Sign c env.sha512New k none testHash).1 ∧
      (fipsPCTBody env c k).log =
        [PctCall.Sign c env.sha512New k none testHash,
         PctCall.Verify c k.pub testHash (env.Sign c env.sha512New k none testHash).1]) ∧
    (∀ {ρ : Type} (PCT : String → Traced (PctCall C H Rd) (Option Error) → ρ),
      fipsPCT PCT env c k = PCT "ECDSA PCT" (fipsPCTBody env c k)) := by
  have hval : ∀ env : PctEnv C H Rd, (fipsPCTBody env c k).val =
      match (env.Sign c env.sha512New k none testHash).2 with
      | some e => some e
      | none => env.Verify c k.pub testHash (env.Sign c env.sha512New k none testHash).1 := by
    intro env
    simp only [fipsPCTBody, PctEnv.callSign, PctEnv.callVerify, Traced.val_bind,
      Traced.val_call]
    split <;> simp_all
  have hlog : ∀ env : PctEnv C H Rd, (fipsPCTBody env c k).log =
      PctCall.Sign c env.sha512New k none testHash ::
      match (env.Sign c env.sha512New k none testHash).2 with
      | some _ => []
      | none =>
        [PctCall.Verify c k.pub testHash (env.Sign c env.sha512New k none testHash).1] := by
    intro env
    simp only [fipsPCTBody, PctEnv.callSign, PctEnv.callVerify, Traced.log_bind,
      Traced.log_call]
    split <;> simp_all
  refine ⟨?_, fun e he => ⟨?_, ?_, fun V => ?_⟩, fun hs => ⟨?_, ?_⟩, fun PCT => rfl⟩
  · rw [hval]
    rcases hs : (env.Sign c env.sha512New k none testHash).2 with _ | e <;> simp
  · rw [hval, he]
  · rw [hlog, he]
  · rw [Traced.ext_iff, hval, hval, hlog, hlog]
    simp [he]
  · rw [hval, hs]
  · rw [hlog, hs]

/-! ### The seed material -/

/-- C6: in the randomized-path case `newDRBG` is called once, with the 16 bytes
`0x01..0x10` as entropy, no additional input (the nil slice) and the 16 bytes
`0x11..0x20` as plain personalization string; in the deterministic-path case it is
called once, with the private scalar `d` of the fixed key as entropy,
`bits2octets(P256(), testHash())` as additional input and no personalization (nil). In
both cases the handle it returns is the one handed to `sign`. -/
theorem seed_material {C H D : Type} (env : CastEnv C H D) :
    (fipsSelfTestBody env).log.filter Call.isNewDRBG =
      [Call.newDRBG env.sha512New
        ((List.range 16).map fun i => Fin.ofNat (i + 0x01)) []
        (some (plainPersonalizationString
          ((List.range 16).map fun i => Fin.ofNat (i + 0x11))))] ∧
    Call.sign env.P256 testPrivateKey
        (env.newDRBG env.sha512New
          ((List.range 16).map fun i => Fin.ofNat (i + 0x01)) []
          (some (plainPersonalizationString
            ((List.range 16).map fun i => Fin.ofNat (i + 0x11)))))
        testHash ∈ (fipsSelfTestBody env).log ∧
    (fipsSelfTestDeterministicBody env).log.filter Call.isNewDRBG =
      [Call.newDRBG env.sha512New testPrivateKey.d
        (env.bits2octets env.P256 testHash) none] ∧
    Call.sign env.P256 testPrivateKey
        (env.newDRBG env.sha512New testPrivateKey.d
          (env.bits2octets env.P256 testHash) none)
        testHash ∈ (fipsSelfTestDeterministicBody env).log := by
  have hZ : ((List.range 16).map fun i => (Fin.ofNat (i + 0x01) : Byte)) = fipsSelfTest.Z := by
    decide
  have hP : ((List.range 16).map fun i => (Fin.ofNat (i + 0x11) : Byte)) =
      fipsSelfTest.persStr := by
    decide
  rw [hZ, hP]
  refine ⟨?_, ?_, ?_, ?_⟩ <;>
    simp only [fipsSelfTestBody, fipsSelfTestBodyWith, fipsSelfTestDeterministicBody,
      fipsSelfTestDeterministicBodyWith, CastEnv.callNewDRBG, CastEnv.callSign,
      CastEnv.callVerify, CastEnv.callBits2octets, Traced.log_bind, Traced.log_call,
      Traced.val_bind, Traced.val_call] <;>
    (split <;> [skip; split] <;> simp [Call.isNewDRBG] <;> split <;> simp [Call.isNewDRBG])

end Ecdsa
